import Mathlib

/-!
Verification development for the Polaris block-header versioned store
(`cosmos/x/evm/plugins/block/header.go`).

The plugin persists one serialized header per chain height using only two
fixed storage slots (a genesis slot and a "current header" slot); per-height
identity is reconstructed by asking the underlying versioned store for a
snapshot view bound to the requested height and reading the current slot
from that view.

Machine integers are modelled as `Nat` / `Int` with explicit reductions
modulo `2 ^ 64` at the points where the Go code performs `uint64` / `int64`
conversions.
-/

/-- Byte sequences are modelled as lists of naturals. -/
def Bytes : Type := List Nat

instance : DecidableEq Bytes := by
  unfold Bytes
  infer_instance

/-- Storage slots. The Go code has exactly two one-byte keys,
`types.HeaderKey` and `types.GenesisHeaderKey`; their concrete byte values
live outside `src/`, so the key space is modelled abstractly as a two-value
type, which the spec calls `CURRENT_SLOT` and `GENESIS_SLOT`. -/
inductive Slot where
  | genesis
  | current
deriving DecidableEq, Repr

/-- Mirrors `types.HeaderKey` (the `CURRENT_SLOT` of the spec). -/
def HeaderKey : Slot := Slot.current

/-- Mirrors `types.GenesisHeaderKey` (the `GENESIS_SLOT` of the spec). -/
def GenesisHeaderKey : Slot := Slot.genesis

/-- Error values. Modelled from the spec: the error library
(`pkg.berachain.dev/polaris/lib/errors`, not under `src/`) wraps an inner
error with a context message and, per the spec's error taxonomy, always
surfaces a failure as an error value; `Err.wrapNil` models `Wrapf` applied
to a `nil` inner error (which happens on the header-number-mismatch path,
where the unmarshal error is already `nil`), still yielding an error value
as the spec's `HeaderMismatchError` requires. `Err.new` models
`errors.New`. -/
inductive Err where
  | new (msg : String)
  | wrap (inner : Err) (msg : String)
  | wrapNil (msg : String)
deriving DecidableEq, Repr

/-- Header values. Modelled from the spec: the header type
(`coretypes.Header` from `pkg.berachain.dev/polaris/eth/core/types`, not
under `src/`) carries a height `number` (a nil-able big-integer pointer in
Go, hence `Option Nat`) plus further chain-specific fields that this
component treats as an opaque payload, collapsed here into `extra`. -/
structure Header where
  number : Option Nat
  extra : Nat
deriving DecidableEq, Repr

/-- Result of a Go call that can also panic (for example by dereferencing a
nil `number` pointer). -/
inductive GoResult (α : Type) where
  | ok (a : α)
  | err (e : Err)
  | panicked (msg : String)
deriving DecidableEq, Repr

/-- Mirrors `header.Number.Uint64()` on a header whose `number` is known to
be present: the low 64 bits of the big integer. -/
def headerNumberU64 (h : Header) : Nat := h.number.getD 0 % 2 ^ 64

/-- Modelled from the spec: the Header Codec (`coretypes.MarshalHeader`,
not under `src/`). Per the spec it is deterministic, pure, and fails with
an `EncodeError` when the header's internal invariants are violated
(a missing `number`, or fields too large for the wire representation). -/
def MarshalHeader (h : Header) : Except Err Bytes :=
  match h.number with
  | none => Except.error (Err.new "rlp: cannot encode nil header number")
  | some n =>
      if n < 2 ^ 64 ∧ h.extra < 2 ^ 64 then Except.ok [n, h.extra]
      else Except.error (Err.new "rlp: header field too large")

/-- Modelled from the spec: the Header Codec (`coretypes.UnmarshalHeader`,
not under `src/`). Per the spec it fails with a `DecodeError` on malformed
input and is exactly inverse to `MarshalHeader`; a successfully decoded
header is complete (its `number` is present). -/
def UnmarshalHeader (bz : Bytes) : Except Err Header :=
  match bz with
  | [n, e] =>
      if n < 2 ^ 64 ∧ e < 2 ^ 64 then Except.ok { number := some n, extra := e }
      else Except.error (Err.new "rlp: malformed header bytes")
  | _ => Except.error (Err.new "rlp: malformed header bytes")

/-- One `sdk.Context`: the view of the KV store under the plugin's store
key, together with the context's block height. -/
structure Ctx where
  kv : Slot → Option Bytes
  blockHeight : Int

/-- The block plugin state: the late-bound query-context function (nil
until `SetQueryContextFn` is called) and the live context. -/
structure Plugin where
  getQueryContext : Option (Int → Bool → Except Err Ctx)
  ctx : Ctx

/-- Go conversion `uint64(x)` of an `int64` value: reinterpretation modulo
`2 ^ 64`. -/
def u64ofI64 (x : Int) : Nat := (x % (2 : Int) ^ 64).toNat

/-- Go conversion `int64(n)` of a `uint64` value: reinterpretation modulo
`2 ^ 64` into the signed range. -/
def i64ofU64 (n : Nat) : Int :=
  if n < 2 ^ 63 then (n : Int) else (n : Int) - 2 ^ 64

/-- Mirrors `SetQueryContextFn`: installs the query-context function. -/
def SetQueryContextFn (p : Plugin) (gqc : Int → Bool → Except Err Ctx) : Plugin :=
  { p with getQueryContext := some gqc }

/-- Mirrors `getKeyForBlockNumber`: the genesis header key for block number
0, the regular header key otherwise. -/
def getKeyForBlockNumber (number : Nat) : Slot :=
  if number = 0 then GenesisHeaderKey else HeaderKey

/-- Mirrors `readGenesisHeaderBytes`: reads the genesis key from the live
store (`Get` returns `nil`, here `none`, when the key is absent). -/
def readGenesisHeaderBytes (p : Plugin) : Option Bytes :=
  p.ctx.kv GenesisHeaderKey

/-- The height clamp inside `readHeaderBytes`: a requested number above
`uint64(p.ctx.BlockHeight())` is replaced by that current height. -/
def clampHeight (p : Plugin) (number : Nat) : Nat :=
  if number > u64ofI64 p.ctx.blockHeight then u64ofI64 p.ctx.blockHeight else number

/-- Mirrors `readHeaderBytes`: genesis bytes for height 0; otherwise
requires the query-context function, clamps the height to the current block
height, obtains the query context (requesting no proof), and reads the
regular header key from it. -/
def readHeaderBytes (p : Plugin) (number : Nat) : Except Err (Option Bytes) :=
  if number = 0 then
    Except.ok (readGenesisHeaderBytes p)
  else
    match p.getQueryContext with
    | none => Except.error (Err.new "GetHeader: getQueryContext is nil")
    | some gqc =>
        match gqc (i64ofU64 (clampHeight p number)) false with
        | Except.error e =>
            Except.error (Err.wrap e "GetHeader: failed to use query context")
        | Except.ok qctx => Except.ok (qctx.kv HeaderKey)

/-- Mirrors `GetHeaderByNumber`: reads the header bytes, fails if they are
absent, unmarshals them, and rejects a decoded header whose `Uint64` number
differs from the `number` argument (note: the argument, not the clamped
height); the mismatch error wraps the — at that point nil — unmarshal
error. Dereferencing a nil decoded `number` would panic. -/
def GetHeaderByNumber (p : Plugin) (number : Nat) : GoResult Header :=
  match readHeaderBytes p number with
  | Except.error e => GoResult.err e
  | Except.ok none => GoResult.err (Err.new "GetHeader: polaris header not found in kvstore")
  | Except.ok (some bz) =>
      match UnmarshalHeader bz with
      | Except.error e => GoResult.err (Err.wrap e "GetHeader: failed to unmarshal")
      | Except.ok header =>
          match header.number with
          | none => GoResult.panicked "runtime error: invalid memory address or nil pointer dereference"
          | some bn =>
              if bn % 2 ^ 64 ≠ number then
                GoResult.err (Err.wrapNil
                  ("GetHeader: header number mismatch, got " ++ toString (bn % 2 ^ 64) ++
                    ", expected " ++ toString number))
              else GoResult.ok header

/-- Functional update of the live KV store, modelling
`ctx.KVStore(storekey).Set(key, bz)`. -/
def setKV (c : Ctx) (s : Slot) (bz : Bytes) : Ctx :=
  { c with kv := fun k => if k = s then some bz else c.kv k }

/-- Mirrors `StoreHeader`: marshals the header (propagating a wrapped
encode failure with the state untouched) and writes the bytes to the key
for the header's number in the live store. -/
def StoreHeader (p : Plugin) (h : Header) : Except Err Unit × Plugin :=
  match MarshalHeader h with
  | Except.error e =>
      (Except.error (Err.wrap e "SetHeader: failed to marshal header"), p)
  | Except.ok bz =>
      (Except.ok (),
        { p with ctx := setKV p.ctx (getKeyForBlockNumber (headerNumberU64 h)) bz })

/-! Theorems about the embedded operations. -/

/-- A successfully decoded header always carries its number. -/
theorem unmarshal_number_isSome (bz : Bytes) (h : Header)
    (hu : UnmarshalHeader bz = Except.ok h) : ∃ n, h.number = some n := by
  cases bz with
  | nil => simp [UnmarshalHeader] at hu
  | cons a t =>
    cases t with
    | nil => simp [UnmarshalHeader] at hu
    | cons b t2 =>
      cases t2 with
      | nil =>
        simp only [UnmarshalHeader] at hu
        split at hu
        · injection hu with h1
          exact ⟨a, by rw [← h1]⟩
        · cases hu
      | cons c t3 => simp [UnmarshalHeader] at hu

/-- Claim C7: the key-selection function returns the genesis slot exactly
for height 0 and the current-header slot for every other height; it is a
pure total Lean function. -/
theorem getKeyForBlockNumber_genesis_iff (n : Nat) :
    (getKeyForBlockNumber n = GenesisHeaderKey ↔ n = 0) ∧
    (n ≠ 0 → getKeyForBlockNumber n = HeaderKey) := by
  unfold getKeyForBlockNumber GenesisHeaderKey HeaderKey
  by_cases h : n = 0 <;> simp [h]

/-- Witness for C7 at heights 0 and 3. -/
theorem getKeyForBlockNumber_genesis_iff_w :
    getKeyForBlockNumber 0 = GenesisHeaderKey ∧ getKeyForBlockNumber 3 = HeaderKey :=
  ⟨(getKeyForBlockNumber_genesis_iff 0).1.mpr rfl,
    (getKeyForBlockNumber_genesis_iff 3).2 (by decide)⟩

/-- Claim C8: decoding the bytes produced by a successful encoding of a
header yields that header back (the codec round-trip law). -/
theorem marshal_unmarshal_roundtrip (h : Header) (bz : Bytes)
    (hm : MarshalHeader h = Except.ok bz) : UnmarshalHeader bz = Except.ok h := by
  obtain ⟨hn, he⟩ := h
  cases hn with
  | none => simp [MarshalHeader] at hm
  | some n =>
    simp only [MarshalHeader] at hm
    split at hm
    case isTrue hc =>
      injection hm with h1
      subst h1
      simp only [UnmarshalHeader]
      rw [if_pos hc]
    case isFalse hc => cases hm

/-- Witness for C8 at a concrete header. -/
theorem marshal_unmarshal_roundtrip_w :
    UnmarshalHeader [5, 7] = Except.ok { number := some 5, extra := 7 } :=
  marshal_unmarshal_roundtrip { number := some 5, extra := 7 } [5, 7] rfl

/-- Claim C5: storing a header encodes it and writes the encoded bytes to
the key for the header's number in the live store, touching nothing else;
if encoding fails, the wrapped error is propagated and the plugin state is
returned completely unchanged. -/
theorem storeHeader_encode_and_write (p : Plugin) (h : Header) :
    (∀ e, MarshalHeader h = Except.error e →
      StoreHeader p h = (Except.error (Err.wrap e "SetHeader: failed to marshal header"), p)) ∧
    (∀ bz, MarshalHeader h = Except.ok bz →
      (StoreHeader p h).1 = Except.ok () ∧
      (StoreHeader p h).2.ctx.kv (getKeyForBlockNumber (headerNumberU64 h)) = some bz ∧
      (∀ s, s ≠ getKeyForBlockNumber (headerNumberU64 h) →
        (StoreHeader p h).2.ctx.kv s = p.ctx.kv s) ∧
      (StoreHeader p h).2.ctx.blockHeight = p.ctx.blockHeight ∧
      (StoreHeader p h).2.getQueryContext = p.getQueryContext) := by
  constructor
  · intro e he
    unfold StoreHeader
    rw [he]
  · intro bz hb
    unfold StoreHeader
    rw [hb]
    refine ⟨rfl, ?_, ?_, rfl, rfl⟩
    · simp [setKV]
    · intro s hs
      simp [setKV, hs]

/-- Witness for C5 at a concrete plugin and header. -/
theorem storeHeader_encode_and_write_w :
    (StoreHeader { getQueryContext := none, ctx := { kv := fun _ => none, blockHeight := 0 } }
        { number := some 5, extra := 7 }).1 = Except.ok () :=
  ((storeHeader_encode_and_write
      { getQueryContext := none, ctx := { kv := fun _ => none, blockHeight := 0 } }
      { number := some 5, extra := 7 }).2 [5, 7] rfl).1

/-- Claim C3: a height-0 lookup is answered purely from the genesis slot of
the live store — any two plugin states agreeing on that slot (whatever
their query-context functions or other slots hold) give the same answer —
and an empty genesis slot yields exactly the not-found error. -/
theorem genesis_isolation :
    (∀ p₁ p₂ : Plugin, p₁.ctx.kv GenesisHeaderKey = p₂.ctx.kv GenesisHeaderKey →
      GetHeaderByNumber p₁ 0 = GetHeaderByNumber p₂ 0) ∧
    (∀ p : Plugin, p.ctx.kv GenesisHeaderKey = none →
      GetHeaderByNumber p 0 = GoResult.err (Err.new "GetHeader: polaris header not found in kvstore")) := by
  constructor
  · intro p₁ p₂ hkv
    have h1 : readHeaderBytes p₁ 0 = readHeaderBytes p₂ 0 := by
      unfold readHeaderBytes readGenesisHeaderBytes
      simp [hkv]
    unfold GetHeaderByNumber
    rw [h1]
  · intro p hnone
    unfold GetHeaderByNumber readHeaderBytes readGenesisHeaderBytes
    simp [hnone]

/-- Witness for C3 at a concrete plugin with an empty genesis slot. -/
theorem genesis_isolation_w :
    GetHeaderByNumber { getQueryContext := none, ctx := { kv := fun _ => none, blockHeight := 0 } } 0
      = GoResult.err (Err.new "GetHeader: polaris header not found in kvstore") :=
  genesis_isolation.2 _ rfl

/-- Claim C9: for every plugin state, requested height and header, a lookup
returns an ordinary result or an error value — never the panicked outcome —
and a store returns an ordinary error or success; every failure is an error
value handed to the immediate caller. -/
theorem never_panics (p : Plugin) (n : Nat) (h : Header) :
    ((∃ hd, GetHeaderByNumber p n = GoResult.ok hd) ∨
      (∃ e, GetHeaderByNumber p n = GoResult.err e)) ∧
    ((StoreHeader p h).1 = Except.ok () ∨ ∃ e, (StoreHeader p h).1 = Except.error e) := by
  constructor
  · cases hr : readHeaderBytes p n with
    | error e => exact Or.inr ⟨e, by simp [GetHeaderByNumber, hr]⟩
    | ok ob =>
      cases ob with
      | none =>
        exact Or.inr ⟨Err.new "GetHeader: polaris header not found in kvstore",
          by simp [GetHeaderByNumber, hr]⟩
      | some bz =>
        cases hu : UnmarshalHeader bz with
        | error e =>
          exact Or.inr ⟨Err.wrap e "GetHeader: failed to unmarshal",
            by simp [GetHeaderByNumber, hr, hu]⟩
        | ok hd =>
          obtain ⟨m, hm⟩ := unmarshal_number_isSome bz hd hu
          by_cases hc : m % 2 ^ 64 ≠ n
          · refine Or.inr ⟨Err.wrapNil
              ("GetHeader: header number mismatch, got " ++ toString (m % 2 ^ 64) ++
                ", expected " ++ toString n), ?_⟩
            simp only [GetHeaderByNumber, hr, hu, hm]
            rw [if_pos hc]
          · refine Or.inl ⟨hd, ?_⟩
            simp only [GetHeaderByNumber, hr, hu, hm]
            rw [if_neg hc]
  · cases hm : MarshalHeader h with
    | error e =>
      exact Or.inr ⟨Err.wrap e "SetHeader: failed to marshal header",
        by simp [StoreHeader, hm]⟩
    | ok bz => exact Or.inl (by simp [StoreHeader, hm])

/-- Claim C10: with no query-context function installed, every lookup at a
height of at least 1 fails with the dedicated error (an error value, not a
panic, produced before any slot is read), while a height-0 lookup is
unaffected by installing any query-context function. -/
theorem missing_query_context_fn (p : Plugin) (H : Nat)
    (hq : p.getQueryContext = none) (h1 : 1 ≤ H) :
    GetHeaderByNumber p H = GoResult.err (Err.new "GetHeader: getQueryContext is nil") ∧
    (∀ gqc, GetHeaderByNumber (SetQueryContextFn p gqc) 0 = GetHeaderByNumber p 0) := by
  constructor
  · have hH : ¬ H = 0 := by omega
    unfold GetHeaderByNumber readHeaderBytes
    rw [if_neg hH, hq]
  · intro gqc
    rfl

/-- Witness for C10 at a concrete plugin with no query-context function. -/
theorem missing_query_context_fn_w :
    GetHeaderByNumber { getQueryContext := none, ctx := { kv := fun _ => none, blockHeight := 0 } } 1
      = GoResult.err (Err.new "GetHeader: getQueryContext is nil") :=
  (missing_query_context_fn
    { getQueryContext := none, ctx := { kv := fun _ => none, blockHeight := 0 } } 1
    rfl (by decide)).1

/-- The clamp only looks at the live context, not at the query-context
function. -/
theorem clampHeight_ctx (qc1 qc2 : Option (Int → Bool → Except Err Ctx)) (c : Ctx) (H : Nat) :
    clampHeight { getQueryContext := qc1, ctx := c } H
      = clampHeight { getQueryContext := qc2, ctx := c } H := rfl

/-- Claim C6: for a height of at least 1, the historical read consults the
query-context function only with the proof flag set to false (two functions
agreeing on proofless queries give identical results), and an adapter
failure at the clamped height surfaces as that failure wrapped in the
query-context error. -/
theorem historical_read_no_proof_and_wrap (p : Plugin) (gqc : Int → Bool → Except Err Ctx)
    (H : Nat) (h1 : 1 ≤ H) (hq : p.getQueryContext = some gqc) :
    (∀ gqc2 : Int → Bool → Except Err Ctx, (∀ x, gqc x false = gqc2 x false) →
      GetHeaderByNumber p H = GetHeaderByNumber { p with getQueryContext := some gqc2 } H) ∧
    (∀ e, gqc (i64ofU64 (clampHeight p H)) false = Except.error e →
      GetHeaderByNumber p H = GoResult.err (Err.wrap e "GetHeader: failed to use query context")) := by
  have hH : ¬ H = 0 := by omega
  obtain ⟨qc0, c⟩ := p
  simp only at hq
  subst hq
  constructor
  · intro gqc2 heq
    have hrb : readHeaderBytes { getQueryContext := some gqc, ctx := c } H
        = readHeaderBytes { getQueryContext := some gqc2, ctx := c } H := by
      simp only [readHeaderBytes, clampHeight]
      rw [if_neg hH, if_neg hH]
      rw [heq]
    unfold GetHeaderByNumber
    rw [hrb]
  · intro e he
    have hrb : readHeaderBytes { getQueryContext := some gqc, ctx := c } H
        = Except.error (Err.wrap e "GetHeader: failed to use query context") := by
      simp only [readHeaderBytes]
      rw [if_neg hH]
      simp only [he]
    simp [GetHeaderByNumber, hrb]

/-- Witness for C6: a pruned height surfaces the wrapped adapter error. -/
theorem historical_read_no_proof_and_wrap_w :
    GetHeaderByNumber
        { getQueryContext := some fun _ _ => Except.error (Err.new "pruned"),
          ctx := { kv := fun _ => none, blockHeight := 5 } } 3
      = GoResult.err (Err.wrap (Err.new "pruned") "GetHeader: failed to use query context") :=
  (historical_read_no_proof_and_wrap
    { getQueryContext := some fun _ _ => Except.error (Err.new "pruned"),
      ctx := { kv := fun _ => none, blockHeight := 5 } }
    (fun _ _ => Except.error (Err.new "pruned")) 3 (by decide) rfl).2 (Err.new "pruned") rfl

/-- Claim C4: a height of at least 1 and at most the current height, whose
stored encoding (the bytes `StoreHeader` writes for a header numbered
exactly that height) is what the snapshot view at that height returns,
is answered with that very header, whose embedded number is the height. -/
theorem height_fidelity (p : Plugin) (gqc : Int → Bool → Except Err Ctx) (hd : Header)
    (H : Nat) (bz : Bytes) (vctx : Ctx)
    (h1 : 1 ≤ H) (hle : H ≤ u64ofI64 p.ctx.blockHeight)
    (hq : p.getQueryContext = some gqc)
    (hv : gqc (i64ofU64 H) false = Except.ok vctx)
    (hkv : vctx.kv HeaderKey = some bz)
    (hm : MarshalHeader hd = Except.ok bz)
    (hn : hd.number = some H) :
    GetHeaderByNumber p H = GoResult.ok hd ∧ headerNumberU64 hd = H := by
  obtain ⟨hnum, hext⟩ := hd
  simp only at hn
  subst hn
  simp only [MarshalHeader] at hm
  split at hm
  case isFalse => cases hm
  case isTrue hlt =>
    injection hm with hbz
    subst hbz
    have hH : ¬ H = 0 := by omega
    have hclamp : clampHeight p H = H := by
      unfold clampHeight
      rw [if_neg (by omega)]
    have hrb : readHeaderBytes p H = Except.ok (some [H, hext]) := by
      simp [readHeaderBytes, hq, hclamp, hv, hkv, hH]
    have hmod : H % 2 ^ 64 = H := Nat.mod_eq_of_lt hlt.1
    constructor
    · simp only [GetHeaderByNumber, hrb, UnmarshalHeader]
      rw [if_pos hlt]
      simp only [hmod]
      simp
    · simpa [headerNumberU64] using hmod

/-- Witness for C4: the header numbered 5 stored at current height 5 is
returned for a request at height 5. -/
theorem height_fidelity_w :
    GetHeaderByNumber
        { getQueryContext := some fun _ _ => Except.ok
            { kv := fun s => if s = HeaderKey then some [5, 7] else none, blockHeight := 5 },
          ctx := { kv := fun _ => none, blockHeight := 5 } } 5
      = GoResult.ok { number := some 5, extra := 7 } :=
  (height_fidelity
    { getQueryContext := some fun _ _ => Except.ok
        { kv := fun s => if s = HeaderKey then some [5, 7] else none, blockHeight := 5 },
      ctx := { kv := fun _ => none, blockHeight := 5 } }
    (fun _ _ => Except.ok
      { kv := fun s => if s = HeaderKey then some [5, 7] else none, blockHeight := 5 })
    { number := some 5, extra := 7 } 5 [5, 7]
    { kv := fun s => if s = HeaderKey then some [5, 7] else none, blockHeight := 5 }
    (by decide) (by decide) rfl rfl rfl rfl rfl).1

/-- Concrete plugin state exercising the mismatch guard under adapter
drift: current block height 5, every snapshot view's current-header slot
holds bytes decoding to a header numbered 9. -/
def driftScene : Plugin :=
  { getQueryContext := some fun _ _ => Except.ok
      { kv := fun s => if s = HeaderKey then some [9, 0] else none, blockHeight := 5 },
    ctx := { kv := fun _ => none, blockHeight := 5 } }

/-- Claim C1 (code bug): requesting height 9 at current height 5 clamps the
read to height 5, yet when the snapshot view's current slot decodes to a
header numbered 9 — differing from the post-clamp height 5 — the call
succeeds with that header instead of failing with the mismatch error,
because the guard compares against the pre-clamp argument. -/
theorem mismatch_guard_misses_postclamp_drift :
    clampHeight driftScene 9 = 5 ∧
    GetHeaderByNumber driftScene 9 = GoResult.ok { number := some 9, extra := 0 } := by
  decide

/-- Concrete plugin state exercising the height clamp: current block height
1, and the snapshot view at height 1 holds the encoded header numbered 1. -/
def clampScene : Plugin :=
  { getQueryContext := some fun _ _ => Except.ok
      { kv := fun s => if s = HeaderKey then some [1, 0] else none, blockHeight := 1 },
    ctx := { kv := fun _ => none, blockHeight := 1 } }

/-- Claim C2 (code bug): with current height 1 and the header numbered 1
properly stored, requesting height 2 — which the read path clamps to 1 —
fails with the header-number-mismatch error, while requesting height 1
succeeds; the two results differ, so the clamp never yields the current
header for a too-new request. -/
theorem clamped_request_diverges_from_current :
    u64ofI64 clampScene.ctx.blockHeight = 1 ∧
    GetHeaderByNumber clampScene 2
      = GoResult.err (Err.wrapNil "GetHeader: header number mismatch, got 1, expected 2") ∧
    GetHeaderByNumber clampScene 1 = GoResult.ok { number := some 1, extra := 0 } := by
  decide
